import Mathlib

/-!
Verification development for the US-Messenger real-time messaging core.

The definitions below are a shallow embedding of the Python sources:

- `apps/common/utils.py` — Redis-backed presence store,
- `apps/chat/models.py` — message / attachment / membership models,
- `apps/chat/consumers.py` — the chat WebSocket consumer,
- `apps/accounts/middleware.py` and `apps/accounts/models.py` — JWT
  middleware and the durable user online flag,
- `apps/accounts/signals.py` — presence-change signal handler,
- `apps/chat/views.py` — REST read and edit paths,
- `apps/notifications/models.py` and `apps/notifications/views.py` —
  notification read/unread transitions.

Machine conventions: identifiers (users, rooms, messages, notifications)
are `Nat`; timestamps are `Int` seconds; Redis time-to-live expiry is not
modelled because every statement proved here is about the state
immediately after an operation.  Django `QuerySet` reads are modelled as
pure functions over the lists of stored rows.
-/

namespace USMessenger

/-! ### Presence store (`apps/common/utils.py`, lines 112-160)

The Redis state visible to the presence helpers: the set of user ids
whose key `presence:user:u` exists (the liveness markers written by
`redis_conn.setex`), and the room presence keys `presence:room:r`, each
holding a set of user ids.  Key strings are represented by the numeric
ids they embed; sets are duplicate-free lists. -/

structure RedisState where
  markers : List Nat
  rooms : List (Nat × List Nat)
deriving DecidableEq, Repr

/-- Helper for `redis_conn.sadd room_key user_id`: `sadd` creates the key
when it is missing and adds the member to the set (a no-op when the
member is already present). -/
def saddRoom : List (Nat × List Nat) → Nat → Nat → List (Nat × List Nat)
  | [], r, u => [(r, [u])]
  | (k, ms) :: rest, r, u =>
      if k = r then (k, if u ∈ ms then ms else u :: ms) :: rest
      else (k, ms) :: saddRoom rest r u

/-- Helper for `redis_conn.smembers room_key`: a missing key reads as the
empty set. -/
def lookupRoom : List (Nat × List Nat) → Nat → List Nat
  | [], _ => []
  | (k, ms) :: rest, r => if k = r then ms else lookupRoom rest r

/-- Embeds `set_user_online(user_id, room_id)`: writes the liveness
marker with `setex` and, when `room_id` is truthy (in Python `0` and
`None` are both falsy), adds the user to the room presence set.  TTL
refreshes do not change the visible state. -/
def set_user_online (st : RedisState) (user_id : Nat) (room_id : Option Nat) : RedisState :=
  let st1 : RedisState :=
    { st with markers := if user_id ∈ st.markers then st.markers else user_id :: st.markers }
  match room_id with
  | none => st1
  | some r =>
      if r = 0 then st1
      else { st1 with rooms := saddRoom st1.rooms r user_id }

/-- Embeds `set_user_offline(user_id)`: deletes the liveness marker and
runs `srem` on every `presence:room:*` key found by `scan_iter`. -/
def set_user_offline (st : RedisState) (user_id : Nat) : RedisState :=
  { markers := st.markers.filter (fun u => u ≠ user_id),
    rooms := st.rooms.map (fun p => (p.1, p.2.filter (fun u => u ≠ user_id))) }

/-- Embeds `is_user_online(user_id)`: existence check of the liveness
marker key. -/
def is_user_online (st : RedisState) (user_id : Nat) : Bool :=
  user_id ∈ st.markers

/-- Embeds `get_online_users_in_room(room_id)`: members of the room
presence key. -/
def get_online_users_in_room (st : RedisState) (room_id : Nat) : List Nat :=
  lookupRoom st.rooms room_id

/-! ### Durable chat data model (`apps/chat/models.py`)

Rows of the `Message` and `Attachment` tables, with the columns the
claims mention.  `created_at` is assigned by `BaseModel.save` on first
save; `id` is a `BigAutoField`, assigned from a monotonically increasing
sequence starting at 1. -/

structure Msg where
  id : Nat
  room : Nat
  sender : Nat
  content : String
  message_type : String
  is_edited : Bool
  edited_at : Option Int
  reply_to : Option Nat
  created_at : Int
deriving DecidableEq, Repr

/-- Rows of the `Attachment` table.  `file` is the storage locator held
by the Django `FileField`; `none` models the empty locator of a row
saved without a `file` value. -/
structure AttachmentRow where
  id : Nat
  message : Nat
  file : Option String
  filename : String
  file_type : String
  file_size : Int
  mime_type : String
deriving DecidableEq, Repr

/-- Embeds Python `str.strip()` with no argument: drop leading and
trailing whitespace characters. -/
def pyStrip (s : String) : String :=
  String.mk (((s.data.dropWhile Char.isWhitespace).reverse.dropWhile Char.isWhitespace).reverse)

/-- Embeds `Message.clean` (models.py lines 197-199): a text message
whose stripped content is empty raises `ValidationError`.  Django only
runs `clean` from `full_clean`, which plain `Model.save` and
`objects.create` never call. -/
def message_clean (m : Msg) : Except String Unit :=
  if m.message_type = "text" ∧ pyStrip m.content = "" then
    Except.error "Text messages must have content."
  else Except.ok ()

/-- Rows of the `RoomMembership` table (models.py lines 106-135). -/
structure Membership where
  user : Nat
  room : Nat
  role : String
  is_active : Bool
deriving DecidableEq, Repr

/-- Rows of the `User` table (`apps/accounts/models.py`): the durable
profile columns touched by `User.set_online` and `User.set_offline`. -/
structure DbUser where
  id : Nat
  is_online : Bool
  last_seen : Option Int
deriving DecidableEq, Repr

/-- The relational state read by the connection path. -/
structure Db where
  users : List DbUser
  memberships : List Membership
deriving DecidableEq, Repr

/-- Embeds `ChatConsumer.is_room_member` (consumers.py lines 368-373):
`ChatRoom.objects.filter(id=room_id, participants=user,
memberships__is_active=True).exists()`.  Both lookups live in one
`filter()` call and traverse the same membership join (the `participants`
many-to-many goes through `RoomMembership` via the same `room` foreign
key the `memberships` reverse relation uses, so Django reuses the join
alias); the query therefore asks for a single membership row of this
user in this room that is active.  The inner join also forces the room
row to exist, which foreign-key integrity of the membership row already
gives. -/
def is_room_member (db : Db) (user_id room_id : Nat) : Bool :=
  db.memberships.any (fun m => m.room == room_id && m.user == user_id && m.is_active)

/-- Growing message/attachment store with the two id sequences. -/
structure Store where
  messages : List Msg
  attachments : List AttachmentRow
  nextMessageId : Nat
  nextAttachmentId : Nat
deriving DecidableEq, Repr

/-! ### Chat WebSocket consumer (`apps/chat/consumers.py`) -/

/-- Embeds `get_room_channel_group` (utils.py lines 169-171). -/
def get_room_channel_group (room_id : Nat) : String :=
  "chat_" ++ toString room_id

/-- Payload of the pydantic `AttachmentData` model (consumers.py lines
46-52). -/
structure AttachmentData where
  message_id : Option Nat
  filename : String
  file_url : String
  file_type : String
  file_size : Int
deriving DecidableEq, Repr

/-- The `data` member of an inbound envelope, classified by which
pydantic payload model it validates as.  `missing` is an absent `data`
member; `invalid` is a present value that coerces to none of the typed
payloads. -/
inductive Payload where
  | missing
  | msgData (content : String) (reply_to : Option Nat)
  | attData (message_id : Option Nat) (filename file_url file_type : String) (file_size : Int)
  | typingData (is_typing : Option Bool)
  | invalid
deriving DecidableEq, Repr

/-- Parse outcome of an inbound WebSocket frame: `badJson` when
`json.loads` raises, `notObj` when the frame parses to a non-object (so
`data.get` raises `AttributeError`, handled by the catch-all), and `obj`
for a JSON object with its optional string `type` member. -/
inductive Inbound where
  | badJson
  | notObj
  | obj (type : Option String) (data : Payload)
deriving DecidableEq, Repr

/-- Events published to a channel-layer group by `group_send`; the tag is
the `type` member of the payload dict. -/
inductive GroupEvent where
  | chat_message (message : Nat)
  | chat_attachment (message : Nat)
  | user_joined (user_id : Nat)
  | user_left (user_id : Nat)
  | user_typing (user_id : Nat) (is_typing : Bool)
  | user_presence_changed (user_id : Nat) (is_online : Bool) (last_seen : Option Int)
deriving DecidableEq, Repr

/-- Externally visible actions of a consumer, in program order.  `send`
is a frame written to this connection's own socket (the envelope type
and its human-readable text); `group_send` is a publish to a channel
group; `group_add`/`group_discard` change group registration; `close`
carries the close code. -/
inductive Effect where
  | send (envelope_type : String) (message : String)
  | group_send (group : String) (event : GroupEvent)
  | group_add (group : String) (channel : String)
  | group_discard (group : String) (channel : String)
  | accept
  | close (code : Nat)
deriving DecidableEq, Repr

/-- Per-connection consumer attributes after a successful connect. -/
structure ChatConsumerState where
  room_id : Nat
  user_id : Nat
deriving DecidableEq, Repr

/-- Embeds `ChatConsumer.create_message` (consumers.py lines 375-390).
The truthiness test `if reply_to:` skips the lookup for `None` and `0`;
a lookup miss (`Message.DoesNotExist`) is swallowed and the reference
dropped.  `Message.objects.create` runs no validation (`full_clean` is
not called), assigns the next id and the `created_at` timestamp `now`,
and persists.  Returns the updated store and the new row's id. -/
def create_message (store : Store) (now : Int) (room_id sender : Nat)
    (content : String) (reply_to : Option Nat) : Store × Nat :=
  let reply_to_obj : Option Nat :=
    match reply_to with
    | none => none
    | some rid =>
        if rid = 0 then none
        else if store.messages.any (fun m => m.id == rid) then some rid
        else none
  let m : Msg :=
    { id := store.nextMessageId, room := room_id, sender := sender, content := content,
      message_type := "text", is_edited := false, edited_at := none,
      reply_to := reply_to_obj, created_at := now }
  ({ store with messages := store.messages ++ [m], nextMessageId := store.nextMessageId + 1 },
   m.id)

/-- Subscripting a pydantic `BaseModel` instance: `BaseModel` implements
no `__getitem__`, so `attachment_data["filename"]` raises `TypeError`
('AttachmentData' object is not subscriptable) for every key. -/
def attachment_data_getitem (_d : AttachmentData) (_key : String) : Except String String :=
  Except.error "TypeError"

/-- Embeds `ChatConsumer.create_attachment_message` (consumers.py lines
392-412).  The `Message` row (type `attachment`, empty content) is
created and committed first; the code then reads the pydantic payload
with dict subscription, which raises `TypeError` before
`Attachment.objects.create` can run, so the intended placeholder row
(MIME type `application/octet-stream`, no `file` locator, `message_id`
payload member unused) is never reached.  Returns the mutated store
together with the outcome. -/
def create_attachment_message (store : Store) (now : Int) (room_id sender : Nat)
    (attachment_data : AttachmentData) : Store × Except String Nat :=
  let m : Msg :=
    { id := store.nextMessageId, room := room_id, sender := sender, content := "",
      message_type := "attachment", is_edited := false, edited_at := none,
      reply_to := none, created_at := now }
  let store1 : Store :=
    { store with messages := store.messages ++ [m], nextMessageId := store.nextMessageId + 1 }
  match attachment_data_getitem attachment_data "filename" with
  | Except.error e => (store1, Except.error e)
  | Except.ok filename =>
      let a : AttachmentRow :=
        { id := store1.nextAttachmentId, message := m.id, file := none,
          filename := filename, file_type := attachment_data.file_type,
          file_size := attachment_data.file_size,
          mime_type := "application/octet-stream" }
      ({ store1 with
          attachments := store1.attachments ++ [a]
          nextAttachmentId := store1.nextAttachmentId + 1 },
       Except.ok m.id)

/-- Embeds `ChatConsumer.handle_message` (consumers.py lines 194-223): a
payload validating as `MessageData` is persisted and broadcast; any
other payload fails pydantic validation and yields a local error
envelope. -/
def handle_message (store : Store) (st : ChatConsumerState) (now : Int)
    (payload : Payload) : Store × List Effect :=
  match payload with
  | Payload.msgData content reply_to =>
      let r := create_message store now st.room_id st.user_id content reply_to
      (r.1, [Effect.group_send (get_room_channel_group st.room_id) (GroupEvent.chat_message r.2)])
  | _ => (store, [Effect.send "error" "Invalid message"])

/-- Embeds `ChatConsumer.handle_attachment` (consumers.py lines
225-251): a payload validating as `AttachmentData` is handed to
`create_attachment_message`; the `TypeError` raised there is caught by
the generic handler, which sends a local error envelope.  Other payloads
fail pydantic validation. -/
def handle_attachment (store : Store) (st : ChatConsumerState) (now : Int)
    (payload : Payload) : Store × List Effect :=
  match payload with
  | Payload.attData message_id filename file_url file_type file_size =>
      let d : AttachmentData :=
        { message_id := message_id, filename := filename, file_url := file_url,
          file_type := file_type, file_size := file_size }
      match create_attachment_message store now st.room_id st.user_id d with
      | (store1, Except.error _) => (store1, [Effect.send "error" "Failed to send attachment"])
      | (store1, Except.ok mid) =>
          (store1, [Effect.group_send (get_room_channel_group st.room_id) (GroupEvent.chat_attachment mid)])
  | _ => (store, [Effect.send "error" "Invalid attachment message"])

/-- Embeds `ChatConsumer.handle_typing` (consumers.py lines 253-270):
`TypingMessage.data` is an arbitrary dict defaulting to empty, and
`data.get("is_typing", True)` defaults to true, so every payload
broadcasts a typing event. -/
def handle_typing (store : Store) (st : ChatConsumerState) (payload : Payload) :
    Store × List Effect :=
  let is_typing : Bool :=
    match payload with
    | Payload.typingData b => b.getD true
    | _ => true
  (store, [Effect.group_send (get_room_channel_group st.room_id)
            (GroupEvent.user_typing st.user_id is_typing)])

/-- Embeds `ChatConsumer.receive` (consumers.py lines 141-192) together
with the `handle_join`/`handle_leave` acknowledgments: malformed JSON,
non-object frames, a missing or falsy `type` member, and an unknown
`type` each produce one local error envelope and nothing else; known
types dispatch to their handler. -/
def receive (store : Store) (st : ChatConsumerState) (now : Int) (frame : Inbound) :
    Store × List Effect :=
  match frame with
  | Inbound.badJson => (store, [Effect.send "error" "Invalid JSON"])
  | Inbound.notObj => (store, [Effect.send "error" "Internal server error"])
  | Inbound.obj none _ => (store, [Effect.send "error" "Message type is required"])
  | Inbound.obj (some t) payload =>
      if t = "" then (store, [Effect.send "error" "Message type is required"])
      else if t = "join" then (store, [Effect.send "success" "Joined room"])
      else if t = "leave" then (store, [Effect.send "success" "Leaving room", Effect.close 1000])
      else if t = "message" then handle_message store st now payload
      else if t = "attachment" then handle_attachment store st now payload
      else if t = "typing" then handle_typing store st payload
      else (store, [Effect.send "error" ("Unknown message type: " ++ t)])

/-! ### Channel-layer group registry

State of `channel_layer` group membership: group name to the channel
names currently added, as an association list. -/

/-- Embeds `channel_layer.group_add(group, channel)`. -/
def group_add : List (String × List String) → String → String → List (String × List String)
  | [], g, ch => [(g, [ch])]
  | (k, chs) :: rest, g, ch =>
      if k = g then (k, if ch ∈ chs then chs else ch :: chs) :: rest
      else (k, chs) :: group_add rest g ch

/-! ### Connection pipeline (`apps/accounts/middleware.py`,
`apps/accounts/models.py`, `apps/accounts/signals.py`,
`ChatConsumer.connect`) -/

/-- Embeds `User.set_online` (accounts/models.py lines 98-102): sets the
durable `is_online` column and clears `last_seen`, then saves. -/
def user_set_online (db : Db) (uid : Nat) : Db :=
  { db with
    users := db.users.map (fun u =>
      if u.id == uid then { u with is_online := true, last_seen := none } else u) }

/-- Embeds the `post_save` receiver `user_status_changed`
(accounts/signals.py lines 23-60): it refetches the row, compares its
`is_online` with the saved saved instance's, and on a difference broadcasts a
`user_presence_changed` event to every room the user is an active member
of.  `dbAfter` is the database state after the save that fired the
signal, `saved` the saved instance; because the refetch happens after
the save committed, the two online flags always agree and the handler
publishes nothing, which the theorems below prove rather than assume. -/
def user_status_changed_signal (dbAfter : Db) (saved : DbUser) : List Effect :=
  match dbAfter.users.find? (fun u => u.id == saved.id) with
  | none => []
  | some old_instance =>
      if old_instance.is_online != saved.is_online then
        (dbAfter.memberships.filter (fun m => m.user == saved.id && m.is_active)).map
          (fun m => Effect.group_send (get_room_channel_group m.room)
            (GroupEvent.user_presence_changed saved.id saved.is_online saved.last_seen))
      else []

/-- Embeds `JWTAuthMiddleware.__call__` (middleware.py lines 39-65) with
`get_user_from_token`: `token_user` is the credential-validation outcome
(`some uid` when the token is valid and names user `uid`; `none` for a
missing or invalid token).  A valid token whose user row exists runs
`user.set_online()` — mutating the durable online flag and firing the
`post_save` signal — and puts the user in scope; otherwise the scope
user is anonymous.  Returns the new database, the scope user, and the
effects published by the signal. -/
def jwt_auth_middleware (db : Db) (token_user : Option Nat) :
    Db × Option Nat × List Effect :=
  match token_user with
  | none => (db, none, [])
  | some uid =>
      match db.users.find? (fun u => u.id == uid) with
      | none => (db, none, [])
      | some u =>
          let saved : DbUser := { u with is_online := true, last_seen := none }
          let db1 := user_set_online db uid
          (db1, some uid, user_status_changed_signal db1 saved)

/-- Combined outcome of a connection attempt: the durable database, the
Redis presence state, the channel-group registry, and the effect trace. -/
structure ConnectResult where
  db : Db
  redis : RedisState
  groups : List (String × List String)
  effects : List Effect
deriving DecidableEq, Repr

/-- Embeds `ChatConsumer.connect` (consumers.py lines 73-111) given the
scope user left by the middleware: anonymous scope closes with 4001; a
scope user failing the membership check closes with 4003 before any
group, accept, presence, or broadcast step; otherwise the consumer joins
the room group, accepts, marks Redis presence online for (user, room)
and broadcasts `user_joined`. -/
def chat_connect (db : Db) (redis : RedisState) (groups : List (String × List String))
    (channel : String) (room_id : Nat) (scope_user : Option Nat) : ConnectResult :=
  match scope_user with
  | none => { db := db, redis := redis, groups := groups, effects := [Effect.close 4001] }
  | some uid =>
      if is_room_member db uid room_id then
        let g := get_room_channel_group room_id
        { db := db
          redis := set_user_online redis uid (some room_id)
          groups := group_add groups g channel
          effects := [Effect.group_add g channel, Effect.accept,
            Effect.group_send g (GroupEvent.user_joined uid)] }
      else { db := db, redis := redis, groups := groups, effects := [Effect.close 4003] }

/-- The full connection pipeline for `/chat/room_id/?token=...`: the JWT
middleware runs first (including its durable `set_online` and the signal
it fires), then the chat consumer's `connect`. -/
def ws_connect (db : Db) (redis : RedisState) (groups : List (String × List String))
    (channel : String) (room_id : Nat) (token_user : Option Nat) : ConnectResult :=
  match jwt_auth_middleware db token_user with
  | (db1, scope_user, signal_effects) =>
      let r := chat_connect db1 redis groups channel room_id scope_user
      { r with effects := signal_effects ++ r.effects }

/-! ### REST read and edit paths (`apps/chat/views.py`) -/

/-- Embeds Django `order_by` over the message columns the claims touch,
as a stable sort on the requested key (`-` prefix is descending).  The
`Message.Meta` default ordering `["created_at"]` corresponds to the key
`"created_at"`; `insertionSort` is stable, modelling that SQL specifies
no order among rows with equal keys beyond the scan order. -/
def order_by (msgs : List Msg) (ordering : String) : List Msg :=
  if ordering = "created_at" then
    msgs.insertionSort (fun a b => a.created_at ≤ b.created_at)
  else if ordering = "-created_at" then
    msgs.insertionSort (fun a b => b.created_at ≤ a.created_at)
  else if ordering = "id" then
    msgs.insertionSort (fun a b => a.id ≤ b.id)
  else if ordering = "-id" then
    msgs.insertionSort (fun a b => b.id ≤ a.id)
  else msgs

/-- Embeds the room-history read path `ChatRoomViewSet.messages`
(views.py lines 101-136) without the optional search filter: the room's
messages ordered by `request.query_params.get("ordering", "-created_at")`
— the default is descending creation time. -/
def room_messages (store : Store) (room_id : Nat) (ordering : Option String) : List Msg :=
  order_by (store.messages.filter (fun m => m.room == room_id)) (ordering.getD "-created_at")

/-- Embeds the model-level read path: any `Message` queryset without an
explicit `order_by` uses `Message.Meta.ordering = ["created_at"]`. -/
def messages_default_ordered (msgs : List Msg) : List Msg :=
  order_by msgs "created_at"

/-- Error taxonomy of the REST edit path. -/
inductive ApiError where
  | permissionDenied
deriving DecidableEq, Repr

/-- Embeds `MessageViewSet.edit` (views.py lines 182-203) for a
content-only patch: reject a non-sender editor, reject when
`timezone.now() - message.created_at > timedelta(minutes=15)` (900
seconds), otherwise save the new content with `is_edited=True` and
`edited_at=timezone.now()`.  Both rejections raise `PermissionDenied`
before anything is saved. -/
def edit_message (m : Msg) (editor : Nat) (new_content : String) (now : Int) :
    Except ApiError Msg :=
  if m.sender ≠ editor then Except.error ApiError.permissionDenied
  else if now - m.created_at > 15 * 60 then Except.error ApiError.permissionDenied
  else Except.ok { m with content := new_content, is_edited := true, edited_at := some now }

/-! ### Notifications (`apps/notifications/models.py`,
`apps/notifications/views.py`) -/

/-- Rows of the `Notification` table with the columns of the model
(`extra_data` elided as an opaque `Option String`). -/
structure Notification where
  id : Nat
  recipient : Nat
  notification_type : String
  title : String
  message : String
  is_read : Bool
  read_at : Option Int
  related_room : Option Nat
  related_message : Option Nat
  related_user : Option Nat
  extra_data : Option String
deriving DecidableEq, Repr

/-- Embeds `Notification.mark_as_read` (notifications/models.py lines
66-73): only an unread notification is changed — read flag set, read
timestamp set to now, saved; an already-read one is left untouched. -/
def mark_as_read (now : Int) (n : Notification) : Notification :=
  if n.is_read then n else { n with is_read := true, read_at := some now }

/-- Embeds `Notification.mark_as_unread` (notifications/models.py lines
75-80): only a read notification is changed — read flag cleared, read
timestamp cleared; an unread one is left untouched. -/
def mark_as_unread (n : Notification) : Notification :=
  if n.is_read then { n with is_read := false, read_at := none } else n

/-- Embeds `NotificationViewSet.mark_all_read` (notifications/views.py
lines 49-53): `queryset.filter(recipient=user, is_read=False)
.update(is_read=True)` — a bulk SQL UPDATE that sets only the `is_read`
column and never calls `save` or `mark_as_read`, so `read_at` (and every
other column) keeps its stored value. -/
def mark_all_read (ns : List Notification) (user : Nat) : List Notification :=
  ns.map (fun n =>
    if n.recipient == user && !n.is_read then { n with is_read := true } else n)

/-- Embeds `NotificationViewSet.bulk_mark_read` (notifications/views.py
lines 55-73): the same bulk UPDATE restricted to the posted notification
ids, still scoped to the requesting recipient and to unread rows. -/
def bulk_mark_read (ns : List Notification) (user : Nat) (ids : List Nat) :
    List Notification :=
  ns.map (fun n =>
    if n.recipient == user && n.id ∈ ids && !n.is_read then { n with is_read := true } else n)

/-- Every column of a notification except the `is_read` flag, used to
state frame conditions of the bulk updates. -/
def notification_frame (n : Notification) :
    Nat × Nat × String × String × String × Option Int × Option Nat × Option Nat × Option Nat × Option String :=
  (n.id, n.recipient, n.notification_type, n.title, n.message, n.read_at,
   n.related_room, n.related_message, n.related_user, n.extra_data)

/-! ### Helper lemmas -/

theorem mem_lookupRoom_saddRoom (rooms : List (Nat × List Nat)) (r u : Nat) :
    u ∈ lookupRoom (saddRoom rooms r u) r := by
  induction rooms with
  | nil => simp [saddRoom, lookupRoom]
  | cons p rest ih =>
      obtain ⟨k, ms⟩ := p
      by_cases hk : k = r
      · subst hk
        simp only [saddRoom, if_pos rfl, lookupRoom]
        by_cases hm : u ∈ ms <;> simp [hm]
      · simpa [saddRoom, lookupRoom, hk] using ih

theorem not_mem_lookupRoom_srem (rooms : List (Nat × List Nat)) (r' u : Nat) :
    u ∉ lookupRoom (rooms.map (fun p => (p.1, p.2.filter (fun v => v ≠ u)))) r' := by
  induction rooms with
  | nil => simp [lookupRoom]
  | cons p rest ih =>
      by_cases hk : p.1 = r'
      · simp [lookupRoom, hk, List.mem_filter]
      · simpa [lookupRoom, hk] using ih

/-! ### Claim theorems -/

/-- C4.  An edit of message `m` by `editor` with fresh content at time
`now` succeeds exactly when the editor is the original sender and the
current time is within fifteen minutes (900 seconds) of creation, in
which case the saved row carries the new content, the edited flag and
the edited timestamp; in every other case `edit_message` fails with the
authorization failure `PermissionDenied` and no row is written. -/
theorem spec_C4_edit_window_authorization (m : Msg) (editor : Nat)
    (new_content : String) (now : Int) :
    edit_message m editor new_content now =
      if editor = m.sender ∧ now - m.created_at ≤ 900 then
        Except.ok { m with content := new_content, is_edited := true, edited_at := some now }
      else Except.error ApiError.permissionDenied := by
  unfold edit_message
  by_cases h1 : m.sender = editor
  · rw [if_neg (fun hne => hne h1)]
    by_cases h2 : now - m.created_at > 15 * 60
    · rw [if_pos h2, if_neg (fun hc => absurd hc.2 (by omega))]
    · rw [if_neg h2, if_pos ⟨h1.symm, by omega⟩, h1]
  · rw [if_pos h1, if_neg (fun hc => h1 hc.1.symm)]

/-- C5.  Immediately after `set_user_online u (some r)` the liveness
marker of `u` exists and `u` is in room `r`'s online set; immediately
after `set_user_offline u` the marker is gone and `u` is in no room's
online set.  The hypothesis `0 < r` reflects that Django room ids come
from an auto-increment sequence starting at 1 (Python treats the id `0`
like `None` in the `if room_id:` guard). -/
theorem spec_C5_presence_transitions (st : RedisState) (u r : Nat) (hr : 0 < r) :
    is_user_online (set_user_online st u (some r)) u = true ∧
    u ∈ get_online_users_in_room (set_user_online st u (some r)) r ∧
    is_user_online (set_user_offline st u) u = false ∧
    (∀ r' : Nat, u ∉ get_online_users_in_room (set_user_offline st u) r') := by
  have hr0 : r ≠ 0 := Nat.pos_iff_ne_zero.mp hr
  refine ⟨?_, ?_, ?_, ?_⟩
  · by_cases hm : u ∈ st.markers <;>
      simp [is_user_online, set_user_online, hr0, hm]
  · simpa [get_online_users_in_room, set_user_online, hr0] using
      mem_lookupRoom_saddRoom _ r u
  · simp [is_user_online, set_user_offline, List.mem_filter]
  · intro r'
    simpa [get_online_users_in_room, set_user_offline] using
      not_mem_lookupRoom_srem st.rooms r' u

/-- Witness for C5 at a concrete state: user 4, room 2, starting from a
state where user 4 is already online in room 3. -/
theorem spec_C5_presence_transitions_witness :
    is_user_online (set_user_online ⟨[4], [(3, [4])]⟩ 4 (some 2)) 4 = true ∧
    4 ∈ get_online_users_in_room (set_user_online ⟨[4], [(3, [4])]⟩ 4 (some 2)) 2 ∧
    is_user_online (set_user_offline ⟨[4], [(3, [4])]⟩ 4) 4 = false ∧
    (∀ r' : Nat, 4 ∉ get_online_users_in_room (set_user_offline ⟨[4], [(3, [4])]⟩ 4) r') :=
  spec_C5_presence_transitions ⟨[4], [(3, [4])]⟩ 4 2 (by decide)

/-- C8.  Read/unread transitions are idempotent: re-marking read is a
no-op (also across different clock readings), re-marking unread is a
no-op, marking an already-read notification read leaves it untouched,
and marking an already-unread notification unread leaves it untouched. -/
theorem spec_C8_mark_read_unread_idempotent (n : Notification) (now now' : Int) :
    mark_as_read now' (mark_as_read now n) = mark_as_read now n ∧
    mark_as_unread (mark_as_unread n) = mark_as_unread n ∧
    mark_as_read now { n with is_read := true } = { n with is_read := true } ∧
    mark_as_unread { n with is_read := false } = { n with is_read := false } := by
  cases hn : n.is_read <;> simp [mark_as_read, mark_as_unread, hn]

/-- C10.  The bulk read paths update only the `is_read` column: every
other column of every notification (in particular `read_at`) is exactly
as stored, a never-read notification marked read in bulk ends with
`is_read` true and `read_at` still null, while the single
`mark_as_read` path stamps `read_at` with the current time. -/
theorem spec_C10_bulk_read_sets_only_flag (ns : List Notification) (user : Nat)
    (ids : List Nat) (n : Notification) (now : Int) :
    (mark_all_read ns user).map notification_frame = ns.map notification_frame ∧
    (bulk_mark_read ns user ids).map notification_frame = ns.map notification_frame ∧
    mark_all_read [{ n with recipient := user, is_read := false, read_at := none }] user =
      [{ n with recipient := user, is_read := true, read_at := none }] ∧
    (mark_as_read now { n with is_read := false }).read_at = some now := by
  refine ⟨?_, ?_, ?_, ?_⟩
  · induction ns with
    | nil => rfl
    | cons x xs ih =>
        simp only [mark_all_read, List.map_cons] at ih ⊢
        refine congrArg₂ _ ?_ ih
        split <;> rfl
  · induction ns with
    | nil => rfl
    | cons x xs ih =>
        simp only [bulk_mark_read, List.map_cons] at ih ⊢
        refine congrArg₂ _ ?_ ih
        split <;> rfl
  · simp [mark_all_read]
  · simp [mark_as_read]

/-- Message row builder for concrete test stores (plain record filler;
all structure fields spelled at use sites). -/
def mkMsg (i room sender : Nat) (content mtype : String) (reply : Option Nat) (t : Int) : Msg :=
  { id := i, room := room, sender := sender, content := content, message_type := mtype,
    is_edited := false, edited_at := none, reply_to := reply, created_at := t }

/-- C2 (code bug).  A whitespace-only "message" envelope from a joined
member is not rejected: `ChatConsumer.create_message` persists the row
through `objects.create`, which never runs `Message.clean`, and the
message is broadcast to the room with no local error envelope — even
though the model's own `clean` method rejects exactly this row.  The
evaluation below exhibits both facts at a concrete input. -/
theorem spec_C2_blank_message_persisted_and_broadcast :
    receive ⟨[], [], 1, 1⟩ ⟨1, 7⟩ 50 (Inbound.obj (some "message") (Payload.msgData "   " none)) =
      (⟨[mkMsg 1 1 7 "   " "text" none 50], [], 2, 1⟩,
       [Effect.group_send "chat_1" (GroupEvent.chat_message 1)]) ∧
    message_clean (mkMsg 1 1 7 "   " "text" none 50) =
      Except.error "Text messages must have content." := by
  constructor <;> rfl

/-- C9 (code bug).  Every "attachment" envelope fails at runtime: the
`Message` row of type `attachment` is persisted first (with the payload's
`message_id` member never consulted), then `create_attachment_message`
subscripts the pydantic payload object and raises `TypeError`, so no
`Attachment` row — in particular none with the placeholder MIME type and
empty locator — is ever stored, nothing is broadcast, and the sender
receives a local error envelope. -/
theorem spec_C9_attachment_envelope_evaluation :
    receive ⟨[], [], 1, 1⟩ ⟨1, 7⟩ 60
        (Inbound.obj (some "attachment") (Payload.attData (some 5) "a.png" "u" "image" 123)) =
      (⟨[mkMsg 1 1 7 "" "attachment" none 60], [], 2, 1⟩,
       [Effect.send "error" "Failed to send attachment"]) := by
  rfl

/-- C6.  A malformed-JSON frame, a frame parsing to a non-object, a
frame without a (truthy) `type` member, and a frame with an unknown
`type` tag each produce exactly one local error envelope on the sender's
own socket: the store is unchanged, nothing is broadcast to any group,
and no close is issued, so the connection stays open. -/
theorem spec_C6_bad_frames_local_error_only (store : Store) (st : ChatConsumerState)
    (now : Int) (t : String) (p : Payload)
    (h : t ≠ "" ∧ t ≠ "join" ∧ t ≠ "leave" ∧ t ≠ "message" ∧ t ≠ "attachment" ∧ t ≠ "typing") :
    receive store st now Inbound.badJson = (store, [Effect.send "error" "Invalid JSON"]) ∧
    receive store st now Inbound.notObj =
      (store, [Effect.send "error" "Internal server error"]) ∧
    receive store st now (Inbound.obj none p) =
      (store, [Effect.send "error" "Message type is required"]) ∧
    receive store st now (Inbound.obj (some t) p) =
      (store, [Effect.send "error" ("Unknown message type: " ++ t)]) := by
  obtain ⟨h0, h1, h2, h3, h4, h5⟩ := h
  refine ⟨rfl, rfl, rfl, ?_⟩
  simp [receive, h0, h1, h2, h3, h4, h5]

/-- Witness for C6: the unknown tag "ping" on a concrete store. -/
theorem spec_C6_bad_frames_witness :
    receive ⟨[], [], 1, 1⟩ ⟨1, 7⟩ 0 (Inbound.obj (some "ping") Payload.missing) =
      (⟨[], [], 1, 1⟩, [Effect.send "error" ("Unknown message type: " ++ "ping")]) :=
  (spec_C6_bad_frames_local_error_only ⟨[], [], 1, 1⟩ ⟨1, 7⟩ 0 "ping" Payload.missing
    (by refine ⟨?_, ?_, ?_, ?_, ?_, ?_⟩ <;> decide)).2.2.2

/-- C7.  When the `reply_to` identifier names no stored message, message
creation still succeeds: exactly one new row is appended, carrying the
submitted content and a null reply reference (the dangling identifier is
silently dropped), and the new row's id is returned. -/
theorem spec_C7_dangling_reply_dropped (store : Store) (now : Int) (room_id sender : Nat)
    (content : String) (rid : Nat) (h : ∀ m ∈ store.messages, m.id ≠ rid) :
    create_message store now room_id sender content (some rid) =
      ({ store with
          messages := store.messages ++
            [mkMsg store.nextMessageId room_id sender content "text" none now]
          nextMessageId := store.nextMessageId + 1 },
       store.nextMessageId) := by
  have hany : store.messages.any (fun m => m.id == rid) = false := by
    rw [List.any_eq_false]
    intro m hm
    simpa using h m hm
  by_cases h0 : rid = 0 <;> simp [create_message, mkMsg, h0, hany]

/-- Witness for C7: a store holding one message with id 1; the reply
reference 99 resolves to nothing and is dropped. -/
theorem spec_C7_dangling_reply_witness :
    create_message ⟨[mkMsg 1 1 7 "hi" "text" none 10], [], 2, 1⟩ 20 1 8 "re" (some 99) =
      (⟨[mkMsg 1 1 7 "hi" "text" none 10, mkMsg 2 1 8 "re" "text" none 20],
        [], 3, 1⟩,
       2) := by
  have := spec_C7_dangling_reply_dropped
    ⟨[mkMsg 1 1 7 "hi" "text" none 10], [], 2, 1⟩ 20 1 8 "re" 99 (by decide)
  simpa [mkMsg] using this

/-- Message row builder used by the C3 counterexample. -/
def c3_msg (i : Nat) (t : Int) : Msg :=
  mkMsg i 1 1 "x" "text" none t

/-- Concrete store for C3: two messages of room 1, inserted in id order,
with distinct creation timestamps. -/
def c3_store : Store :=
  { messages := [c3_msg 1 10, c3_msg 2 20], attachments := [],
    nextMessageId := 3, nextAttachmentId := 1 }

/-- Formalisation of the order claim C3 asserts for room history:
non-decreasing creation timestamp, ties broken by ascending identifier. -/
def sorted_by_created_then_id : List Msg → Bool
  | [] => true
  | [_] => true
  | a :: b :: rest =>
      (a.created_at < b.created_at ∨ (a.created_at = b.created_at ∧ a.id ≤ b.id)) &&
        sorted_by_created_then_id (b :: rest)

/-- C3 counterexample.  The room-history REST read path with no
`ordering` query parameter returns `[id 2 (t=20), id 1 (t=10)]` —
descending creation time, violating the claimed canonical order — and
the model-default read path applied to a store whose two messages share
a timestamp but were inserted as `[id 2, id 1]` returns them in store
order, not ascending-id order. -/
theorem spec_C3_counterexample :
    sorted_by_created_then_id (room_messages c3_store 1 none) = false ∧
    (room_messages c3_store 1 none).map (fun m => m.id) = [2, 1] ∧
    (messages_default_ordered [c3_msg 2 5, c3_msg 1 5]).map (fun m => m.id) = [2, 1] ∧
    sorted_by_created_then_id (messages_default_ordered [c3_msg 2 5, c3_msg 1 5]) = false := by
  refine ⟨?_, ?_, ?_, ?_⟩ <;> rfl

theorem order_by_desc_created (msgs : List Msg) :
    order_by msgs "-created_at" =
      msgs.insertionSort (fun a b => b.created_at ≤ a.created_at) := by
  have h1 : ("-created_at" : String) ≠ "created_at" := by decide
  simp [order_by, h1]

theorem order_by_asc_created (msgs : List Msg) :
    order_by msgs "created_at" =
      msgs.insertionSort (fun a b => a.created_at ≤ b.created_at) := by
  simp [order_by]

/-- C3 amended.  What the code guarantees instead: the model-level
default ordering (`Message.Meta.ordering = ["created_at"]`) yields a
non-decreasing creation-timestamp sequence with no identifier tie-break,
and the room-history REST endpoint without an `ordering` parameter
yields a non-increasing creation-timestamp sequence (its default is
`-created_at`). -/
theorem spec_C3_history_ordering_amended (store : Store) (room_id : Nat) (msgs : List Msg) :
    List.Sorted (fun a b : Msg => b.created_at ≤ a.created_at)
      (room_messages store room_id none) ∧
    List.Sorted (fun a b : Msg => a.created_at ≤ b.created_at)
      (messages_default_ordered msgs) := by
  constructor
  · have hd : room_messages store room_id none =
        (store.messages.filter (fun m => m.room == room_id)).insertionSort
          (fun a b => b.created_at ≤ a.created_at) := by
      rw [room_messages]
      exact order_by_desc_created _
    rw [hd]
    haveI : IsTotal Msg (fun a b : Msg => b.created_at ≤ a.created_at) :=
      ⟨fun a b => Int.le_total b.created_at a.created_at⟩
    haveI : IsTrans Msg (fun a b : Msg => b.created_at ≤ a.created_at) :=
      ⟨fun _ _ _ hab hbc => le_trans hbc hab⟩
    exact List.sorted_insertionSort _ _
  · rw [messages_default_ordered, order_by_asc_created]
    haveI : IsTotal Msg (fun a b : Msg => a.created_at ≤ b.created_at) :=
      ⟨fun a b => Int.le_total a.created_at b.created_at⟩
    haveI : IsTrans Msg (fun a b : Msg => a.created_at ≤ b.created_at) :=
      ⟨fun _ _ _ hab hbc => le_trans hab hbc⟩
    exact List.sorted_insertionSort _ _

theorem signal_after_set_online (db : Db) (uid : Nat) (saved : DbUser)
    (hon : saved.is_online = true) (hid : saved.id = uid) :
    user_status_changed_signal (user_set_online db uid) saved = [] := by
  unfold user_status_changed_signal
  cases hfind : (user_set_online db uid).users.find? (fun v => v.id == saved.id) with
  | none => rfl
  | some old =>
      have hmem : old ∈ (user_set_online db uid).users := List.mem_of_find?_eq_some hfind
      have hpred := List.find?_some hfind
      simp only [beq_iff_eq] at hpred
      have hold : old.is_online = true := by
        simp only [user_set_online, List.mem_map] at hmem
        obtain ⟨v, _, hv⟩ := hmem
        by_cases hvid : v.id = uid
        · rw [← hv, if_pos (by simp [hvid])]
        · exfalso
          rw [← hv] at hpred
          rw [if_neg (by simp [hvid])] at hpred
          exact hvid (hpred.trans hid)
      simp [hold, hon]

/-- C1.  A connection attempt to room `room_id` by an authenticated user
`uid` (the token resolves to an existing user row) who holds no active
membership of that room is refused with close code 4003, and the attempt
leaves the presence store untouched (the Redis liveness markers and
every room's online set are exactly as before), adds no channel-group
membership, and publishes no event — the only effect of the whole
pipeline is the close, while the JWT middleware's durable
`User.is_online` profile column (not part of the presence store) has
been set on the way in. -/
theorem spec_C1_forbidden_connect_no_mutation (db : Db) (redis : RedisState)
    (groups : List (String × List String)) (channel : String) (room_id uid : Nat)
    (u : DbUser) (hauth : db.users.find? (fun v => v.id == uid) = some u)
    (hmem : ∀ m ∈ db.memberships, ¬ (m.user = uid ∧ m.room = room_id ∧ m.is_active = true)) :
    ws_connect db redis groups channel room_id (some uid) =
      ⟨user_set_online db uid, redis, groups, [Effect.close 4003]⟩ := by
  have hid : u.id = uid := by simpa using List.find?_some hauth
  have hb : is_room_member (user_set_online db uid) uid room_id = false := by
    show db.memberships.any _ = false
    rw [List.any_eq_false]
    intro m hm
    have hno := hmem m hm
    simp only [Bool.and_eq_true, beq_iff_eq, not_and]
    intro hro
    tauto
  have hsig : user_status_changed_signal (user_set_online db uid)
      { u with is_online := true, last_seen := none } = [] :=
    signal_after_set_online db uid _ rfl (by simpa using hid)
  simp only [ws_connect, jwt_auth_middleware, hauth, chat_connect, hb, Bool.false_eq_true,
    if_false, hsig, List.nil_append]

/-- Witness for C1: user 7 exists (and is offline) but their membership
of room 1 is inactive, while user 8 holds an active membership of the
same room; the connect attempt by user 7 is closed with 4003 and only
the durable profile flag changes. -/
theorem spec_C1_forbidden_connect_witness :
    ws_connect ⟨[⟨7, false, none⟩], [⟨7, 1, "member", false⟩, ⟨8, 1, "member", true⟩]⟩
        ⟨[9], [(1, [8, 9])]⟩ [("chat_1", ["c8"])] "c7" 1 (some 7) =
      ⟨user_set_online ⟨[⟨7, false, none⟩], [⟨7, 1, "member", false⟩, ⟨8, 1, "member", true⟩]⟩ 7,
       ⟨[9], [(1, [8, 9])]⟩, [("chat_1", ["c8"])], [Effect.close 4003]⟩ :=
  spec_C1_forbidden_connect_no_mutation _ _ _ _ _ _ ⟨7, false, none⟩ (by rfl) (by decide)

end USMessenger
